import Mathlib

/-
Verification development for the FreeCAD macro src/3key_keyboard_macro.py.
The macro issues a fixed sequence of calls against the FreeCAD Part Design
host: sketch creation, geometry and constraint insertion, pads, pockets, a
fillet and a linear pattern, split over two bodies.  The development below
is a shallow embedding of that call sequence: numeric dimensions are exact
rationals, sketch geometry and constraints are recorded as the macro emits
them, and the solid-level facts that the claims need (the edges of the
extruded base box, the bounding box of the extruded profile, the positions
produced by the linear pattern) are derived from the recorded calls using
the documented FreeCAD feature semantics.
-/

/-- A point or direction with rational coordinates, standing for FreeCAD App.Vector. -/
structure Vec3 where
  x : ℚ
  y : ℚ
  z : ℚ
  deriving DecidableEq, Repr

/-- Sketch geometry primitives used by the macro: Part.LineSegment and Part.Circle. -/
inductive Geometry where
  | lineSegment (a b : Vec3)
  | circle (center axis : Vec3) (radius : ℚ)
  deriving DecidableEq, Repr

/-- One argument of a Sketcher constraint: a geometry or vertex index, or a dimension value. -/
inductive CArg where
  | i (n : Int)
  | q (v : ℚ)
  deriving DecidableEq, Repr

/-- A Sketcher constraint exactly as the macro passes it: the constraint kind and its argument tuple. -/
structure Constraint where
  cname : String
  args : List CArg
  deriving DecidableEq, Repr

/-- A straight edge of a solid, given by its two end points. -/
structure Edge where
  a : Vec3
  b : Vec3
  deriving DecidableEq, Repr

/-- The planar support a sketch is attached to: a named datum plane or a named face of a feature. -/
inductive SupportRef where
  | plane (pname : String)
  | face (feature fname : String)
  deriving DecidableEq, Repr

/-- A Part Design solid feature as configured by the macro.  For a pocket, ty = 1 means
through-all and ty = 0 means cut to the given length, matching the Type codes in the source. -/
inductive Feature where
  | pad (fname profile : String) (len : ℚ) (ty : ℕ)
  | fillet (fname base : String) (edges : List Edge) (radius : ℚ)
  | pocket (fname profile : String) (ty : ℕ) (len : Option ℚ)
  | linearPattern (fname : String) (originals : List String) (direction : String) (len : ℚ) (occurrences : ℕ)
  deriving DecidableEq, Repr

/-- The parameter dictionary of create_3key_keyboard, one field per key, in source order. -/
structure Params where
  base_length : ℚ
  base_width : ℚ
  base_height : ℚ
  base_fillet : ℚ
  button_diameter : ℚ
  button_height : ℚ
  button_spacing : ℚ
  button_offset_y : ℚ
  socket_width : ℚ
  socket_length : ℚ
  socket_depth : ℚ
  socket_offset_z : ℚ
  cable_diameter : ℚ
  cable_hole_x : ℚ
  cable_hole_z : ℚ
  wall_thickness : ℚ
  deriving DecidableEq, Repr

/-- The hardcoded default values of the params dictionary (lines 24 to 50 of the source). -/
def defaultParams : Params :=
  { base_length := 120
    base_width := 40
    base_height := 15
    base_fillet := 3
    button_diameter := 12
    button_height := 8
    button_spacing := 35
    button_offset_y := 0
    socket_width := 6
    socket_length := 6
    socket_depth := 10
    socket_offset_z := 2
    cable_diameter := 6
    cable_hole_x := -50
    cable_hole_z := 15 / 2
    wall_thickness := 2 }

/-- The params dictionary as the ordered list of key and value pairs it is written as. -/
def paramsList (p : Params) : List (String × ℚ) :=
  [("base_length", p.base_length),
   ("base_width", p.base_width),
   ("base_height", p.base_height),
   ("base_fillet", p.base_fillet),
   ("button_diameter", p.button_diameter),
   ("button_height", p.button_height),
   ("button_spacing", p.button_spacing),
   ("button_offset_y", p.button_offset_y),
   ("socket_width", p.socket_width),
   ("socket_length", p.socket_length),
   ("socket_depth", p.socket_depth),
   ("socket_offset_z", p.socket_offset_z),
   ("cable_diameter", p.cable_diameter),
   ("cable_hole_x", p.cable_hole_x),
   ("cable_hole_z", p.cable_hole_z),
   ("wall_thickness", p.wall_thickness)]

/-- The four line segments of BaseSketch (source lines 61 to 76). -/
def baseSketchGeometry (p : Params) : List Geometry :=
  [Geometry.lineSegment (Vec3.mk (-(p.base_length / 2)) (-(p.base_width / 2)) 0)
      (Vec3.mk (p.base_length / 2) (-(p.base_width / 2)) 0),
   Geometry.lineSegment (Vec3.mk (p.base_length / 2) (-(p.base_width / 2)) 0)
      (Vec3.mk (p.base_length / 2) (p.base_width / 2) 0),
   Geometry.lineSegment (Vec3.mk (p.base_length / 2) (p.base_width / 2) 0)
      (Vec3.mk (-(p.base_length / 2)) (p.base_width / 2) 0),
   Geometry.lineSegment (Vec3.mk (-(p.base_length / 2)) (p.base_width / 2) 0)
      (Vec3.mk (-(p.base_length / 2)) (-(p.base_width / 2)) 0)]

/-- The constraints of BaseSketch in emission order: four Coincident closure constraints
from the loop, then Horizontal, Vertical, DistanceX and DistanceY (source lines 79 to 86). -/
def baseSketchConstraints (p : Params) : List Constraint :=
  ((List.range 4).map (fun i =>
    Constraint.mk "Coincident" [CArg.i (Int.ofNat i), CArg.i 2, CArg.i (Int.ofNat ((i + 1) % 4)), CArg.i 1])) ++
  [Constraint.mk "Horizontal" [CArg.i 0],
   Constraint.mk "Vertical" [CArg.i 1],
   Constraint.mk "DistanceX" [CArg.i 0, CArg.q p.base_length],
   Constraint.mk "DistanceY" [CArg.i 1, CArg.q p.base_width]]

/-- The BasePad feature: extrude BaseSketch by base_height, Type 0 meaning plain length. -/
def basePadFeature (p : Params) : Feature :=
  Feature.pad "BasePad" "BaseSketch" p.base_height 0

/-- Translate a point to the top plane of the base pad, adding base_height to z. -/
def extrudeTop (p : Params) (v : Vec3) : Vec3 :=
  Vec3.mk v.x v.y (v.z + p.base_height)

/-- The four corners of the base rectangle, in the order the sketch segments start from them. -/
def baseCorners (p : Params) : List Vec3 :=
  [Vec3.mk (-(p.base_length / 2)) (-(p.base_width / 2)) 0,
   Vec3.mk (p.base_length / 2) (-(p.base_width / 2)) 0,
   Vec3.mk (p.base_length / 2) (p.base_width / 2) 0,
   Vec3.mk (-(p.base_length / 2)) (p.base_width / 2) 0]

/-- The twelve edges of the box solid produced by extruding the base rectangle by base_height:
four bottom rim edges, four top rim edges, four lateral edges.  The enumeration order inside
FreeCAD is kernel internal; the claims about the fillet only concern this set. -/
def boxEdges (p : Params) : List Edge :=
  ((baseSketchGeometry p).filterMap (fun g =>
    match g with
    | Geometry.lineSegment a b => some (Edge.mk a b)
    | Geometry.circle _ _ _ => none)) ++
  ((baseSketchGeometry p).filterMap (fun g =>
    match g with
    | Geometry.lineSegment a b => some (Edge.mk (extrudeTop p a) (extrudeTop p b))
    | Geometry.circle _ _ _ => none)) ++
  ((baseCorners p).map (fun v => Edge.mk v (extrudeTop p v)))

/-- The direction vector of a straight edge, from its first to its second end point. -/
def edgeDirOf (e : Edge) : Vec3 :=
  Vec3.mk (e.b.x - e.a.x) (e.b.y - e.a.y) (e.b.z - e.a.z)

/-- The edge test of source line 103: the magnitude of the z component of the unit tangent
at the first parameter is below 0.1.  For a straight edge with direction d this is
the exact condition 100 mul d.z squared below the squared norm of d, avoiding square roots. -/
def tangentZBelowTenth (e : Edge) : Bool :=
  decide (100 * (edgeDirOf e).z * (edgeDirOf e).z <
    (edgeDirOf e).x * (edgeDirOf e).x + (edgeDirOf e).y * (edgeDirOf e).y +
      (edgeDirOf e).z * (edgeDirOf e).z)

/-- The edges the macro hands to the fillet: all edges of the base pad passing the tangent test. -/
def filletEdgeSelection (p : Params) : List Edge :=
  (boxEdges p).filter tangentZBelowTenth

/-- The BaseFillet feature: the selected edges, filleted at radius base_fillet. -/
def baseFilletFeature (p : Params) : Feature :=
  Feature.fillet "BaseFillet" "BasePad" (filletEdgeSelection p) p.base_fillet

/-- A straight edge is vertical when its direction is parallel to the z axis. -/
def isVerticalEdge (e : Edge) : Bool :=
  decide ((edgeDirOf e).x = 0 ∧ (edgeDirOf e).y = 0 ∧ (edgeDirOf e).z ≠ 0)

/-- A straight edge is horizontal when its direction lies in the xy plane and is nonzero. -/
def isHorizontalEdge (e : Edge) : Bool :=
  decide ((edgeDirOf e).z = 0 ∧ ((edgeDirOf e).x ≠ 0 ∨ (edgeDirOf e).y ≠ 0))

/-- The circle added for button hole i (source lines 116 to 125): center at
x = (i - 1) mul button_spacing, y = button_offset_y, radius half the button diameter. -/
def buttonHoleCircle (p : Params) (i : ℕ) : Geometry :=
  Geometry.circle (Vec3.mk (((i : ℚ) - 1) * p.button_spacing) p.button_offset_y 0)
    (Vec3.mk 0 0 1) (p.button_diameter / 2)

/-- The geometry list of ButtonHolesSketch: the three hole circles in loop order. -/
def buttonHolesGeometry (p : Params) : List Geometry :=
  (List.range 3).map (buttonHoleCircle p)

/-- The constraints emitted for button hole i (source lines 128 to 135): a Radius constraint,
then for the middle hole a PointOnObject constraint against reference -1 (the x axis),
and for the outer holes a Distance constraint to the center of hole 1. -/
def buttonSketchConstraintsAt (p : Params) (i : ℕ) : List Constraint :=
  [Constraint.mk "Radius" [CArg.i (Int.ofNat i), CArg.q (p.button_diameter / 2)]] ++
  (if i = 1 then
    [Constraint.mk "PointOnObject" [CArg.i (Int.ofNat i), CArg.i 3, CArg.i (-1)]]
   else
    [Constraint.mk "Distance"
      [CArg.i 1, CArg.i 3, CArg.i (Int.ofNat i), CArg.i 3, CArg.q p.button_spacing]])

/-- The constraint list of ButtonHolesSketch in emission order over the three holes. -/
def buttonSketchConstraints (p : Params) : List Constraint :=
  (List.range 3).flatMap (buttonSketchConstraintsAt p)

/-- The ButtonHolesPocket feature: Type 1, through all, no length set. -/
def buttonPocketFeature (_p : Params) : Feature :=
  Feature.pocket "ButtonHolesPocket" "ButtonHolesSketch" 1 none

/-- The four line segments of the socket rectangle at position i (source lines 152 to 172),
a socket_length by socket_width rectangle about (x, y) with x = (i - 1) mul button_spacing
and y = button_offset_y. -/
def socketRectSegments (p : Params) (i : ℕ) : List Geometry :=
  [Geometry.lineSegment
      (Vec3.mk (((i : ℚ) - 1) * p.button_spacing - p.socket_length / 2)
        (p.button_offset_y - p.socket_width / 2) 0)
      (Vec3.mk (((i : ℚ) - 1) * p.button_spacing + p.socket_length / 2)
        (p.button_offset_y - p.socket_width / 2) 0),
   Geometry.lineSegment
      (Vec3.mk (((i : ℚ) - 1) * p.button_spacing + p.socket_length / 2)
        (p.button_offset_y - p.socket_width / 2) 0)
      (Vec3.mk (((i : ℚ) - 1) * p.button_spacing + p.socket_length / 2)
        (p.button_offset_y + p.socket_width / 2) 0),
   Geometry.lineSegment
      (Vec3.mk (((i : ℚ) - 1) * p.button_spacing + p.socket_length / 2)
        (p.button_offset_y + p.socket_width / 2) 0)
      (Vec3.mk (((i : ℚ) - 1) * p.button_spacing - p.socket_length / 2)
        (p.button_offset_y + p.socket_width / 2) 0),
   Geometry.lineSegment
      (Vec3.mk (((i : ℚ) - 1) * p.button_spacing - p.socket_length / 2)
        (p.button_offset_y + p.socket_width / 2) 0)
      (Vec3.mk (((i : ℚ) - 1) * p.button_spacing - p.socket_length / 2)
        (p.button_offset_y - p.socket_width / 2) 0)]

/-- The geometry list of SocketSketch: twelve segments, four per socket position. -/
def socketSketchGeometry (p : Params) : List Geometry :=
  (List.range 3).flatMap (socketRectSegments p)

/-- The constraints emitted for socket i (source lines 175 to 181): four Coincident closure
constraints over the segment indices starting at 4 mul i, then DistanceX and DistanceY. -/
def socketSketchConstraintsAt (p : Params) (i : ℕ) : List Constraint :=
  ((List.range 4).map (fun j =>
    Constraint.mk "Coincident"
      [CArg.i (Int.ofNat (4 * i + j)), CArg.i 2,
       CArg.i (Int.ofNat (4 * i + (j + 1) % 4)), CArg.i 1])) ++
  [Constraint.mk "DistanceX" [CArg.i (Int.ofNat (4 * i)), CArg.q p.socket_length],
   Constraint.mk "DistanceY" [CArg.i (Int.ofNat (4 * i + 1)), CArg.q p.socket_width]]

/-- The constraint list of SocketSketch in emission order over the three positions. -/
def socketSketchConstraints (p : Params) : List Constraint :=
  (List.range 3).flatMap (socketSketchConstraintsAt p)

/-- The SocketPocket feature: Type 0, cut to length socket_depth. -/
def socketPocketFeature (p : Params) : Feature :=
  Feature.pocket "SocketPocket" "SocketSketch" 0 (some p.socket_depth)

/-- The single circle of CableHoleSketch (source lines 199 to 203), on the YZ plane. -/
def cableSketchGeometry (p : Params) : List Geometry :=
  [Geometry.circle (Vec3.mk 0 p.cable_hole_z 0) (Vec3.mk 1 0 0) (p.cable_diameter / 2)]

/-- The constraints of CableHoleSketch (source lines 206 to 207). -/
def cableSketchConstraints (p : Params) : List Constraint :=
  [Constraint.mk "Radius" [CArg.i 0, CArg.q (p.cable_diameter / 2)],
   Constraint.mk "DistanceY" [CArg.i 0, CArg.i 3, CArg.i (-2), CArg.q p.cable_hole_z]]

/-- The CableHolePocket feature: Type 1, through all. -/
def cablePocketFeature (_p : Params) : Feature :=
  Feature.pocket "CableHolePocket" "CableHoleSketch" 1 none

/-- The single cap circle of ButtonSketch in the buttons body (source lines 227 to 231):
centered at the origin with radius (button_diameter - 1) / 2. -/
def buttonCapCircle (p : Params) : Geometry :=
  Geometry.circle (Vec3.mk 0 0 0) (Vec3.mk 0 0 1) ((p.button_diameter - 1) / 2)

/-- The geometry list of ButtonSketch. -/
def buttonCapSketchGeometry (p : Params) : List Geometry :=
  [buttonCapCircle p]

/-- The constraints of ButtonSketch (source lines 233 to 234). -/
def buttonCapSketchConstraints (p : Params) : List Constraint :=
  [Constraint.mk "Radius" [CArg.i 0, CArg.q ((p.button_diameter - 1) / 2)],
   Constraint.mk "Coincident" [CArg.i 0, CArg.i 3, CArg.i (-1)]]

/-- The ButtonPad feature: extrude ButtonSketch by button_height. -/
def buttonPadFeature (p : Params) : Feature :=
  Feature.pad "ButtonPad" "ButtonSketch" p.button_height 0

/-- The ButtonPattern feature (source lines 246 to 250): linear pattern of ButtonPad along
the x axis, total length 2 mul button_spacing, 3 occurrences. -/
def buttonPatternFeature (p : Params) : Feature :=
  Feature.linearPattern "ButtonPattern" ["ButtonPad"] "X_Axis" (2 * p.button_spacing) 3

/-- The rigid placement applied to the buttons body (source lines 254 to 257): a pure
translation by base_height along z. -/
def buttonsPlacement (p : Params) : Vec3 :=
  Vec3.mk 0 0 p.base_height

/-- A Part Design body: its name, its ordered chain of solid features, and its placement. -/
structure Body where
  bname : String
  features : List Feature
  placement : Vec3
  deriving DecidableEq, Repr

/-- The KeyboardBody with its five solid features in creation order. -/
def keyboardBody (p : Params) : Body :=
  Body.mk "KeyboardBody"
    [basePadFeature p, baseFilletFeature p, buttonPocketFeature p,
     socketPocketFeature p, cablePocketFeature p]
    (Vec3.mk 0 0 0)

/-- The ButtonsBody with its two features and its upward placement. -/
def buttonsBody (p : Params) : Body :=
  Body.mk "ButtonsBody" [buttonPadFeature p, buttonPatternFeature p] (buttonsPlacement p)

/-- The bodies the macro adds to the document, in creation order. -/
def docBodies (p : Params) : List Body :=
  [keyboardBody p, buttonsBody p]

/-- Modelled from the spec: occurrence offsets of a FreeCAD Part Design linear pattern.
The occurrences, the original included as the first one, are spread over the total span
len along the direction, so occurrence k sits at offset k mul len / (occ - 1). -/
def patternOffsets (len : ℚ) (occ : ℕ) : List ℚ :=
  (List.range occ).map (fun k => (k : ℚ) * (len / ((occ : ℚ) - 1)))

/-- The center point of a geometry element: the center for a circle, the start for a segment. -/
def circleCenter : Geometry → Vec3 :=
  fun g =>
    match g with
    | Geometry.circle c _ _ => c
    | Geometry.lineSegment a _ => a

/-- The projected xy centers of the three button caps after the pattern and the body
placement: the cap circle center, shifted by each pattern offset along x and by the
placement translation. -/
def capCentersXY (p : Params) : List (ℚ × ℚ) :=
  (patternOffsets (2 * p.button_spacing) 3).map (fun o =>
    ((circleCenter (buttonCapCircle p)).x + o + (buttonsPlacement p).x,
     (circleCenter (buttonCapCircle p)).y + (buttonsPlacement p).y))

/-- The projected xy center of button hole i in the base body. -/
def holeCenterXY (p : Params) (i : ℕ) : ℚ × ℚ :=
  ((circleCenter (buttonHoleCircle p i)).x, (circleCenter (buttonHoleCircle p i)).y)

/-- The projected xy centers of the three button holes. -/
def holeCentersXY (p : Params) : List (ℚ × ℚ) :=
  (List.range 3).map (holeCenterXY p)

/-- Whether a feature is a through-all pocket, Type code 1 in the source. -/
def pocketIsThroughAll : Feature → Bool :=
  fun f =>
    match f with
    | Feature.pocket _ _ ty _ => ty == 1
    | _ => false

/-- The constructor kind of a feature as a short tag. -/
def featureKind : Feature → String :=
  fun f =>
    match f with
    | Feature.pad _ _ _ _ => "Pad"
    | Feature.fillet _ _ _ _ => "Fillet"
    | Feature.pocket _ _ _ _ => "Pocket"
    | Feature.linearPattern _ _ _ _ _ => "LinearPattern"

/-- The name a feature was created under. -/
def featureName : Feature → String :=
  fun f =>
    match f with
    | Feature.pad n _ _ _ => n
    | Feature.fillet n _ _ _ => n
    | Feature.pocket n _ _ _ => n
    | Feature.linearPattern n _ _ _ _ => n

/-- The occurrence count of a linear pattern feature, 0 for any other feature. -/
def featureOccurrences : Feature → ℕ :=
  fun f =>
    match f with
    | Feature.linearPattern _ _ _ _ o => o
    | _ => 0

/-- The two end points of a line segment; a circle degenerates to its center. -/
def lineEnds : Geometry → Vec3 × Vec3 :=
  fun g =>
    match g with
    | Geometry.lineSegment a b => (a, b)
    | Geometry.circle c _ _ => (c, c)

/-- The xy center of socket rectangle i: the midpoint of the diagonal between the start
corner of its first segment and the start corner of its third segment. -/
def socketCenterXY (p : Params) (i : ℕ) : ℚ × ℚ :=
  (((lineEnds ((socketRectSegments p i).getD 0
        (Geometry.lineSegment (Vec3.mk 0 0 0) (Vec3.mk 0 0 0)))).1.x +
    (lineEnds ((socketRectSegments p i).getD 2
        (Geometry.lineSegment (Vec3.mk 0 0 0) (Vec3.mk 0 0 0)))).1.x) / 2,
   ((lineEnds ((socketRectSegments p i).getD 0
        (Geometry.lineSegment (Vec3.mk 0 0 0) (Vec3.mk 0 0 0)))).1.y +
    (lineEnds ((socketRectSegments p i).getD 2
        (Geometry.lineSegment (Vec3.mk 0 0 0) (Vec3.mk 0 0 0)))).1.y) / 2)

/-- Fold of max over a list with a starting value. -/
def listMax (a : ℚ) (l : List ℚ) : ℚ :=
  l.foldl max a

/-- Fold of min over a list with a starting value. -/
def listMin (a : ℚ) (l : List ℚ) : ℚ :=
  l.foldl min a

/-- The maximum of a list of rationals, 0 for the empty list. -/
def maxOf : List ℚ → ℚ :=
  fun l =>
    match l with
    | [] => 0
    | x :: xs => listMax x xs

/-- The minimum of a list of rationals, 0 for the empty list. -/
def minOf : List ℚ → ℚ :=
  fun l =>
    match l with
    | [] => 0
    | x :: xs => listMin x xs

/-- All points mentioned by a sketch geometry list: segment end points and circle centers. -/
def sketchPoints (l : List Geometry) : List Vec3 :=
  l.flatMap (fun g =>
    match g with
    | Geometry.lineSegment a b => [a, b]
    | Geometry.circle c _ _ => [c])

/-- The vertices of the base pad solid: the profile points at z = 0 and their copies
lifted to z = base_height.  The extruded box is their convex hull, so its axis aligned
bounding box is the bounding box of this list. -/
def padVertices (p : Params) : List Vec3 :=
  sketchPoints (baseSketchGeometry p) ++
    (sketchPoints (baseSketchGeometry p)).map (extrudeTop p)

/-- The x extent of the base pad solid as a min and max pair. -/
def padBoundsX (p : Params) : ℚ × ℚ :=
  (minOf ((padVertices p).map Vec3.x), maxOf ((padVertices p).map Vec3.x))

/-- The y extent of the base pad solid as a min and max pair. -/
def padBoundsY (p : Params) : ℚ × ℚ :=
  (minOf ((padVertices p).map Vec3.y), maxOf ((padVertices p).map Vec3.y))

/-- The z extent of the base pad solid as a min and max pair. -/
def padBoundsZ (p : Params) : ℚ × ℚ :=
  (minOf ((padVertices p).map Vec3.z), maxOf ((padVertices p).map Vec3.z))

/-- One host call of the macro, as an abstract construction operation.  Console printing at
the end of the script is not a construction call and is not modelled. -/
inductive Op where
  | newDocument (dname : String)
  | newBody (bname : String)
  | newSketch (bname sname : String)
  | setSupport (sname : String) (s : SupportRef)
  | addGeometry (sname : String) (g : Geometry)
  | addConstraint (sname : String) (c : Constraint)
  | recompute
  | newFeature (bname : String) (f : Feature)
  | setPlacement (bname : String) (v : Vec3)
  | viewIsometric
  | viewFit
  | setColor (bname : String) (r g b : ℚ)
  deriving DecidableEq, Repr

/-- The interleaved geometry and constraint calls of the button holes loop, in source order:
for each i, the circle, then its radius constraint, then its position constraint. -/
def buttonHolesOps (p : Params) : List Op :=
  (List.range 3).flatMap (fun i =>
    [Op.addGeometry "ButtonHolesSketch" (buttonHoleCircle p i)] ++
      (buttonSketchConstraintsAt p i).map (Op.addConstraint "ButtonHolesSketch"))

/-- The interleaved geometry and constraint calls of the socket loop, in source order:
for each i, the four segments, then the six constraints of that rectangle. -/
def socketOps (p : Params) : List Op :=
  (List.range 3).flatMap (fun i =>
    (socketRectSegments p i).map (Op.addGeometry "SocketSketch") ++
      (socketSketchConstraintsAt p i).map (Op.addConstraint "SocketSketch"))

/-- The full ordered sequence of construction calls create_3key_keyboard issues against the
host, transcribed from the source top to bottom. -/
def trace (p : Params) : List Op :=
  [Op.newDocument "3KeyKeyboard",
   Op.newBody "KeyboardBody",
   Op.newSketch "KeyboardBody" "BaseSketch",
   Op.setSupport "BaseSketch" (SupportRef.plane "XY_Plane")] ++
  (baseSketchGeometry p).map (Op.addGeometry "BaseSketch") ++
  (baseSketchConstraints p).map (Op.addConstraint "BaseSketch") ++
  [Op.recompute,
   Op.newFeature "KeyboardBody" (basePadFeature p),
   Op.recompute,
   Op.newFeature "KeyboardBody" (baseFilletFeature p),
   Op.recompute,
   Op.newSketch "KeyboardBody" "ButtonHolesSketch",
   Op.setSupport "ButtonHolesSketch" (SupportRef.face "BaseFillet" "Face1")] ++
  buttonHolesOps p ++
  [Op.recompute,
   Op.newFeature "KeyboardBody" (buttonPocketFeature p),
   Op.recompute,
   Op.newSketch "KeyboardBody" "SocketSketch",
   Op.setSupport "SocketSketch" (SupportRef.face "BaseFillet" "Face2")] ++
  socketOps p ++
  [Op.recompute,
   Op.newFeature "KeyboardBody" (socketPocketFeature p),
   Op.recompute,
   Op.newSketch "KeyboardBody" "CableHoleSketch",
   Op.setSupport "CableHoleSketch" (SupportRef.plane "YZ_Plane")] ++
  (cableSketchGeometry p).map (Op.addGeometry "CableHoleSketch") ++
  (cableSketchConstraints p).map (Op.addConstraint "CableHoleSketch") ++
  [Op.recompute,
   Op.newFeature "KeyboardBody" (cablePocketFeature p),
   Op.recompute,
   Op.newBody "ButtonsBody",
   Op.newSketch "ButtonsBody" "ButtonSketch",
   Op.setSupport "ButtonSketch" (SupportRef.plane "XY_Plane")] ++
  (buttonCapSketchGeometry p).map (Op.addGeometry "ButtonSketch") ++
  (buttonCapSketchConstraints p).map (Op.addConstraint "ButtonSketch") ++
  [Op.recompute,
   Op.newFeature "ButtonsBody" (buttonPadFeature p),
   Op.recompute,
   Op.newFeature "ButtonsBody" (buttonPatternFeature p),
   Op.recompute,
   Op.setPlacement "ButtonsBody" (buttonsPlacement p),
   Op.viewIsometric,
   Op.viewFit,
   Op.setColor "KeyboardBody" (4 / 5) (4 / 5) (9 / 10),
   Op.setColor "ButtonsBody" (1 / 5) (1 / 5) (1 / 5),
   Op.recompute]

/-- The sketch a feature consumes as its profile, if any. -/
def featureProfile : Feature → Option String :=
  fun f =>
    match f with
    | Feature.pad _ pr _ _ => some pr
    | Feature.pocket _ pr _ _ => some pr
    | _ => none

/-- The view of an operation that the sketch discipline depends on: whether it creates a
sketch, mutates a sketch by adding geometry or a constraint, or creates the feature that
consumes a sketch as its profile.  All numeric content is dropped. -/
inductive OpView where
  | creates (sname : String)
  | mutates (sname : String)
  | consumes (sname : String)
  | other
  deriving DecidableEq, Repr

/-- Project an operation to its sketch-discipline view. -/
def opView : Op → OpView :=
  fun op =>
    match op with
    | Op.newSketch _ n => OpView.creates n
    | Op.addGeometry t _ => OpView.mutates t
    | Op.addConstraint t _ => OpView.mutates t
    | Op.newFeature _ f =>
        match featureProfile f with
        | some t => OpView.consumes t
        | none => OpView.other
    | _ => OpView.other

/-- Whether a view mutates the named sketch. -/
def viewMutates (s : String) (v : OpView) : Bool :=
  match v with
  | OpView.mutates t => t == s
  | _ => false

/-- Whether a view consumes the named sketch. -/
def viewConsumes (s : String) (v : OpView) : Bool :=
  match v with
  | OpView.consumes t => t == s
  | _ => false

/-- The names of the sketches a view list creates, in creation order. -/
def viewSketchNames (l : List OpView) : List String :=
  l.filterMap (fun v =>
    match v with
    | OpView.creates n => some n
    | _ => none)

/-- A sketch is settled in a view list when some feature consumes it and no operation
mutates it from the creation of that consuming feature onward. -/
def viewSettledIn (l : List OpView) (s : String) : Bool :=
  l.any (viewConsumes s) &&
    !((l.dropWhile (fun v => !(viewConsumes s v))).any (viewMutates s))

/-- Whether every sketch a view list creates is settled in it. -/
def viewChecks (l : List OpView) : Bool :=
  (viewSketchNames l).all (viewSettledIn l)

/-- The names of the sketches a trace creates, in creation order. -/
def sketchNames (l : List Op) : List String :=
  viewSketchNames (l.map opView)

/-- Whether every sketch a trace creates receives its geometry and constraints strictly
before the feature consuming it is created, and is never touched afterwards. -/
def checkTrace (l : List Op) : Bool :=
  viewChecks (l.map opView)

/-- A parameter set equal to the defaults except in the three fields no construction
stage reads: socket_offset_z, cable_hole_x and wall_thickness. -/
def altParams : Params :=
  { defaultParams with socket_offset_z := 5, cable_hole_x := -20, wall_thickness := 3 }

/-- Folding max from a over l yields m as soon as m is one of the candidates and bounds them all. -/
theorem listMax_eq_of (m : ℚ) (l : List ℚ) :
    ∀ a : ℚ, (m = a ∨ m ∈ l) → a ≤ m → (∀ x ∈ l, x ≤ m) → listMax a l = m := by
  induction l with
  | nil =>
      intro a hm _ _
      rcases hm with rfl | h
      · rfl
      · cases h
  | cons x xs ih =>
      intro a hm ha hl
      have hax : max a x ≤ m := max_le ha (hl x (by simp))
      have hm2 : m = max a x ∨ m ∈ xs := by
        rcases hm with rfl | hmem
        · exact Or.inl (le_antisymm hax (le_max_left _ x)).symm
        · rcases List.mem_cons.mp hmem with rfl | h
          · exact Or.inl (le_antisymm hax (le_max_right a _)).symm
          · exact Or.inr h
      have hl2 : ∀ y ∈ xs, y ≤ m := fun y hy => hl y (List.mem_cons_of_mem x hy)
      exact ih (max a x) hm2 hax hl2

/-- Folding min from a over l yields m as soon as m is one of the candidates and is below them all. -/
theorem listMin_eq_of (m : ℚ) (l : List ℚ) :
    ∀ a : ℚ, (m = a ∨ m ∈ l) → m ≤ a → (∀ x ∈ l, m ≤ x) → listMin a l = m := by
  induction l with
  | nil =>
      intro a hm _ _
      rcases hm with rfl | h
      · rfl
      · cases h
  | cons x xs ih =>
      intro a hm ha hl
      have hax : m ≤ min a x := le_min ha (hl x (by simp))
      have hm2 : m = min a x ∨ m ∈ xs := by
        rcases hm with rfl | hmem
        · exact Or.inl (le_antisymm (min_le_left _ x) hax).symm
        · rcases List.mem_cons.mp hmem with rfl | h
          · exact Or.inl (le_antisymm (min_le_right a _) hax).symm
          · exact Or.inr h
      have hl2 : ∀ y ∈ xs, m ≤ y := fun y hy => hl y (List.mem_cons_of_mem x hy)
      exact ih (min a x) hm2 hax hl2

set_option maxHeartbeats 4000000 in
/-- The sketch-discipline view of the trace does not depend on the parameter values:
only the shape of the call sequence matters, and that shape is fixed. -/
theorem trace_view_const (p : Params) :
    (trace p).map opView = (trace defaultParams).map opView := rfl

/-- Claim C1, code behavior at the failing input: with the default parameters the linear
pattern spreads the caps from the original at x = 0 over a span of 2 mul button_spacing,
giving cap centers x = 0, 35, 70, while the button holes sit at x = -35, 0, 35; the body
placement only translates along z, so the projected cap centers do not coincide with the
hole centers, and the cap at x = 70 matches no hole at all. -/
theorem C1_cap_centers_mismatch :
    capCentersXY defaultParams = [(0, 0), (35, 0), (70, 0)] ∧
    holeCentersXY defaultParams = [(-35, 0), (0, 0), (35, 0)] ∧
    ((70 : ℚ), (0 : ℚ)) ∉ holeCentersXY defaultParams ∧
    capCentersXY defaultParams ≠ holeCentersXY defaultParams := by
  refine ⟨?_, ?_, ?_, ?_⟩
  · norm_num [capCentersXY, patternOffsets, circleCenter, buttonCapCircle, buttonsPlacement,
      defaultParams, List.range_succ]
  · norm_num [holeCentersXY, holeCenterXY, circleCenter, buttonHoleCircle, defaultParams,
      List.range_succ]
  · norm_num [holeCentersXY, holeCenterXY, circleCenter, buttonHoleCircle, defaultParams,
      List.range_succ]
  · norm_num [capCentersXY, holeCentersXY, holeCenterXY, patternOffsets, circleCenter,
      buttonCapCircle, buttonHoleCircle, buttonsPlacement, defaultParams, List.range_succ]

/-- Claim C2, code behavior at the failing input: on the default base pad the tangent test
abs tangent z below 0.1 selects exactly the 8 horizontal rim edges and none of the 4
vertical edges, the opposite of what the claim and the source comment state; the fillet
feature applies radius base_fillet = 3 to that selection. -/
theorem C2_fillet_selects_horizontal :
    (boxEdges defaultParams).length = 12 ∧
    ((boxEdges defaultParams).filter isVerticalEdge).length = 4 ∧
    (filletEdgeSelection defaultParams).length = 8 ∧
    (filletEdgeSelection defaultParams).all isHorizontalEdge = true ∧
    ((boxEdges defaultParams).filter isVerticalEdge).all
      (fun e => !(tangentZBelowTenth e)) = true ∧
    baseFilletFeature defaultParams =
      Feature.fillet "BaseFillet" "BasePad" (filletEdgeSelection defaultParams) 3 := by
  refine ⟨by decide, ?_, ?_, ?_, ?_, ?_⟩
  · norm_num [boxEdges, baseSketchGeometry, baseCorners, extrudeTop, isVerticalEdge,
      edgeDirOf, defaultParams, List.filter]
  · norm_num [filletEdgeSelection, boxEdges, baseSketchGeometry, baseCorners, extrudeTop,
      tangentZBelowTenth, edgeDirOf, defaultParams, List.filter]
  · norm_num [filletEdgeSelection, boxEdges, baseSketchGeometry, baseCorners, extrudeTop,
      tangentZBelowTenth, isHorizontalEdge, edgeDirOf, defaultParams, List.filter, List.all]
  · norm_num [boxEdges, baseSketchGeometry, baseCorners, extrudeTop, isVerticalEdge,
      tangentZBelowTenth, edgeDirOf, defaultParams, List.filter, List.all]
  · norm_num [baseFilletFeature, defaultParams]

/-- Claim C3, counterexample: with the default parameters the button-holes sketch receives
six constraints and none of them is a Coincident constraint, so the center hole is not
constrained coincident to the sketch origin point. -/
theorem C3_no_coincident_constraint :
    ((buttonSketchConstraints defaultParams).filter
      (fun c => c.cname == "Coincident")) = [] ∧
    (buttonSketchConstraints defaultParams).length = 6 := by
  refine ⟨by decide, by decide⟩

/-- Claim C3, amended: in the button-holes sketch the center hole receives a PointOnObject
constraint placing its center on the x axis reference, object -1, and each outer hole a
point-to-point Distance constraint of button_spacing from the center of hole 1; each hole
also receives a Radius constraint of half the button diameter. -/
theorem C3_button_hole_constraints (p : Params) :
    buttonSketchConstraints p =
      [Constraint.mk "Radius" [CArg.i 0, CArg.q (p.button_diameter / 2)],
       Constraint.mk "Distance"
         [CArg.i 1, CArg.i 3, CArg.i 0, CArg.i 3, CArg.q p.button_spacing],
       Constraint.mk "Radius" [CArg.i 1, CArg.q (p.button_diameter / 2)],
       Constraint.mk "PointOnObject" [CArg.i 1, CArg.i 3, CArg.i (-1)],
       Constraint.mk "Radius" [CArg.i 2, CArg.q (p.button_diameter / 2)],
       Constraint.mk "Distance"
         [CArg.i 1, CArg.i 3, CArg.i 2, CArg.i 3, CArg.q p.button_spacing]] := rfl

/-- Claim C4, counterexample: with the default parameters the keyboard body contains five
solid features, not four. -/
theorem C4_not_four_features :
    ¬ ((keyboardBody defaultParams).features.length = 4) := by decide

/-- Claim C4, amended: the generator produces exactly 2 bodies; the keyboard body contains
exactly 5 solid features in the fixed order pad, fillet, button-holes pocket, socket
pocket, cable pocket; the buttons body contains exactly 2 features, a pad followed by a
linear pattern of 3 occurrences. -/
theorem C4_feature_inventory :
    (docBodies defaultParams).length = 2 ∧
    (keyboardBody defaultParams).features.map featureKind =
      ["Pad", "Fillet", "Pocket", "Pocket", "Pocket"] ∧
    (keyboardBody defaultParams).features.map featureName =
      ["BasePad", "BaseFillet", "ButtonHolesPocket", "SocketPocket", "CableHolePocket"] ∧
    (buttonsBody defaultParams).features.map featureKind = ["Pad", "LinearPattern"] ∧
    (buttonsBody defaultParams).features.map featureName = ["ButtonPad", "ButtonPattern"] ∧
    featureOccurrences
      ((buttonsBody defaultParams).features.getD 1 (Feature.pad "" "" 0 0)) = 3 := by
  refine ⟨rfl, rfl, rfl, rfl, rfl, rfl⟩

/-- Claim C5: for every parameter set the button-holes sketch places exactly three circles
of radius half the button diameter at x = minus spacing, 0, plus spacing on the line
y = button_offset_y, consecutive centers are spaced exactly button_spacing apart, and the
resulting pocket is a through-all pocket, Type 1. -/
theorem C5_button_hole_layout (p : Params) :
    buttonHolesGeometry p =
      [Geometry.circle (Vec3.mk (-p.button_spacing) p.button_offset_y 0) (Vec3.mk 0 0 1)
         (p.button_diameter / 2),
       Geometry.circle (Vec3.mk 0 p.button_offset_y 0) (Vec3.mk 0 0 1)
         (p.button_diameter / 2),
       Geometry.circle (Vec3.mk p.button_spacing p.button_offset_y 0) (Vec3.mk 0 0 1)
         (p.button_diameter / 2)] ∧
    (circleCenter (buttonHoleCircle p 1)).x - (circleCenter (buttonHoleCircle p 0)).x =
      p.button_spacing ∧
    (circleCenter (buttonHoleCircle p 2)).x - (circleCenter (buttonHoleCircle p 1)).x =
      p.button_spacing ∧
    pocketIsThroughAll (buttonPocketFeature p) = true := by
  refine ⟨?_, ?_, ?_, rfl⟩
  · norm_num [buttonHolesGeometry, buttonHoleCircle, List.range_succ]
  · norm_num [circleCenter, buttonHoleCircle]
  · norm_num [circleCenter, buttonHoleCircle]

/-- Claim C6: for every parameter set and each of the three positions, the socket
rectangle sketched on the bottom face is centered at the same xy coordinates as the
corresponding button hole, and the socket pocket is cut to the fixed length socket_depth
with Type 0, hence not through-all. -/
theorem C6_socket_concentric_with_holes (p : Params) :
    socketCenterXY p 0 = holeCenterXY p 0 ∧
    socketCenterXY p 1 = holeCenterXY p 1 ∧
    socketCenterXY p 2 = holeCenterXY p 2 ∧
    socketPocketFeature p = Feature.pocket "SocketPocket" "SocketSketch" 0
      (some p.socket_depth) ∧
    pocketIsThroughAll (socketPocketFeature p) = false := by
  refine ⟨?_, ?_, ?_, rfl, rfl⟩ <;>
    norm_num [socketCenterXY, holeCenterXY, socketRectSegments, lineEnds, circleCenter,
      buttonHoleCircle]

/-- Claim C7: the base stage builds a closed rectangle of size base_length by base_width
centered at the origin from four line segments, constrains it with four Coincident plus
Horizontal, Vertical, DistanceX and DistanceY constraints, and extrudes it upward by
base_height with a Type 0 pad, so for nonnegative dimensions the extruded solid spans
exactly from minus half to plus half of each planar dimension and from 0 to base_height,
a bounding box of base_length by base_width by base_height. -/
theorem C7_base_rectangle_bbox (p : Params)
    (hL : 0 ≤ p.base_length) (hW : 0 ≤ p.base_width) (hH : 0 ≤ p.base_height) :
    baseSketchGeometry p =
      [Geometry.lineSegment (Vec3.mk (-(p.base_length / 2)) (-(p.base_width / 2)) 0)
         (Vec3.mk (p.base_length / 2) (-(p.base_width / 2)) 0),
       Geometry.lineSegment (Vec3.mk (p.base_length / 2) (-(p.base_width / 2)) 0)
         (Vec3.mk (p.base_length / 2) (p.base_width / 2) 0),
       Geometry.lineSegment (Vec3.mk (p.base_length / 2) (p.base_width / 2) 0)
         (Vec3.mk (-(p.base_length / 2)) (p.base_width / 2) 0),
       Geometry.lineSegment (Vec3.mk (-(p.base_length / 2)) (p.base_width / 2) 0)
         (Vec3.mk (-(p.base_length / 2)) (-(p.base_width / 2)) 0)] ∧
    baseSketchConstraints p =
      [Constraint.mk "Coincident" [CArg.i 0, CArg.i 2, CArg.i 1, CArg.i 1],
       Constraint.mk "Coincident" [CArg.i 1, CArg.i 2, CArg.i 2, CArg.i 1],
       Constraint.mk "Coincident" [CArg.i 2, CArg.i 2, CArg.i 3, CArg.i 1],
       Constraint.mk "Coincident" [CArg.i 3, CArg.i 2, CArg.i 0, CArg.i 1],
       Constraint.mk "Horizontal" [CArg.i 0],
       Constraint.mk "Vertical" [CArg.i 1],
       Constraint.mk "DistanceX" [CArg.i 0, CArg.q p.base_length],
       Constraint.mk "DistanceY" [CArg.i 1, CArg.q p.base_width]] ∧
    basePadFeature p = Feature.pad "BasePad" "BaseSketch" p.base_height 0 ∧
    padBoundsX p = (-(p.base_length / 2), p.base_length / 2) ∧
    padBoundsY p = (-(p.base_width / 2), p.base_width / 2) ∧
    padBoundsZ p = (0, p.base_height) ∧
    (padBoundsX p).2 - (padBoundsX p).1 = p.base_length ∧
    (padBoundsY p).2 - (padBoundsY p).1 = p.base_width ∧
    (padBoundsZ p).2 - (padBoundsZ p).1 = p.base_height := by
  have hx : (padVertices p).map Vec3.x =
      [-(p.base_length / 2), p.base_length / 2, p.base_length / 2, p.base_length / 2,
       p.base_length / 2, -(p.base_length / 2), -(p.base_length / 2), -(p.base_length / 2),
       -(p.base_length / 2), p.base_length / 2, p.base_length / 2, p.base_length / 2,
       p.base_length / 2, -(p.base_length / 2), -(p.base_length / 2),
       -(p.base_length / 2)] := rfl
  have hy : (padVertices p).map Vec3.y =
      [-(p.base_width / 2), -(p.base_width / 2), -(p.base_width / 2), p.base_width / 2,
       p.base_width / 2, p.base_width / 2, p.base_width / 2, -(p.base_width / 2),
       -(p.base_width / 2), -(p.base_width / 2), -(p.base_width / 2), p.base_width / 2,
       p.base_width / 2, p.base_width / 2, p.base_width / 2, -(p.base_width / 2)] := rfl
  have hz : (padVertices p).map Vec3.z =
      [0, 0, 0, 0, 0, 0, 0, 0,
       0 + p.base_height, 0 + p.base_height, 0 + p.base_height, 0 + p.base_height,
       0 + p.base_height, 0 + p.base_height, 0 + p.base_height, 0 + p.base_height] := rfl
  have hbx : padBoundsX p = (-(p.base_length / 2), p.base_length / 2) := by
    have hmin : minOf ((padVertices p).map Vec3.x) = -(p.base_length / 2) := by
      rw [hx]
      refine listMin_eq_of _ _ _ (Or.inl rfl) le_rfl ?_
      intro x hx2
      simp only [List.mem_cons, List.not_mem_nil, or_false] at hx2
      rcases hx2 with rfl | rfl | rfl | rfl | rfl | rfl | rfl | rfl | rfl | rfl | rfl |
        rfl | rfl | rfl | rfl
      all_goals linarith
    have hmax : maxOf ((padVertices p).map Vec3.x) = p.base_length / 2 := by
      rw [hx]
      refine listMax_eq_of _ _ _ (Or.inr (by simp)) (by linarith) ?_
      intro x hx2
      simp only [List.mem_cons, List.not_mem_nil, or_false] at hx2
      rcases hx2 with rfl | rfl | rfl | rfl | rfl | rfl | rfl | rfl | rfl | rfl | rfl |
        rfl | rfl | rfl | rfl
      all_goals linarith
    rw [padBoundsX, hmin, hmax]
  have hby : padBoundsY p = (-(p.base_width / 2), p.base_width / 2) := by
    have hmin : minOf ((padVertices p).map Vec3.y) = -(p.base_width / 2) := by
      rw [hy]
      refine listMin_eq_of _ _ _ (Or.inl rfl) le_rfl ?_
      intro y hy2
      simp only [List.mem_cons, List.not_mem_nil, or_false] at hy2
      rcases hy2 with rfl | rfl | rfl | rfl | rfl | rfl | rfl | rfl | rfl | rfl | rfl |
        rfl | rfl | rfl | rfl
      all_goals linarith
    have hmax : maxOf ((padVertices p).map Vec3.y) = p.base_width / 2 := by
      rw [hy]
      refine listMax_eq_of _ _ _ (Or.inr (by simp)) (by linarith) ?_
      intro y hy2
      simp only [List.mem_cons, List.not_mem_nil, or_false] at hy2
      rcases hy2 with rfl | rfl | rfl | rfl | rfl | rfl | rfl | rfl | rfl | rfl | rfl |
        rfl | rfl | rfl | rfl
      all_goals linarith
    rw [padBoundsY, hmin, hmax]
  have hbz : padBoundsZ p = (0, p.base_height) := by
    have hmin : minOf ((padVertices p).map Vec3.z) = 0 := by
      rw [hz]
      refine listMin_eq_of _ _ _ (Or.inl rfl) le_rfl ?_
      intro z hz2
      simp only [List.mem_cons, List.not_mem_nil, or_false] at hz2
      rcases hz2 with rfl | rfl | rfl | rfl | rfl | rfl | rfl | rfl | rfl | rfl | rfl |
        rfl | rfl | rfl | rfl
      all_goals linarith
    have hmax : maxOf ((padVertices p).map Vec3.z) = p.base_height := by
      rw [hz]
      refine listMax_eq_of _ _ _ (Or.inr (by simp)) (by linarith) ?_
      intro z hz2
      simp only [List.mem_cons, List.not_mem_nil, or_false] at hz2
      rcases hz2 with rfl | rfl | rfl | rfl | rfl | rfl | rfl | rfl | rfl | rfl | rfl |
        rfl | rfl | rfl | rfl
      all_goals linarith
    rw [padBoundsZ, hmin, hmax]
  refine ⟨rfl, rfl, rfl, hbx, hby, hbz, ?_, ?_, ?_⟩
  · rw [hbx]
    ring
  · rw [hby]
    ring
  · rw [hbz]
    ring

/-- Claim C7 witness: the default parameters satisfy the nonnegativity hypotheses and the
default base pad spans from -60 to 60 in x, -20 to 20 in y and 0 to 15 in z. -/
theorem C7_base_rectangle_bbox_witness :
    ((0 : ℚ) ≤ defaultParams.base_length ∧ (0 : ℚ) ≤ defaultParams.base_width ∧
      (0 : ℚ) ≤ defaultParams.base_height) ∧
    padBoundsX defaultParams = (-(defaultParams.base_length / 2),
      defaultParams.base_length / 2) ∧
    padBoundsY defaultParams = (-(defaultParams.base_width / 2),
      defaultParams.base_width / 2) ∧
    padBoundsZ defaultParams = (0, defaultParams.base_height) :=
  ⟨⟨by norm_num [defaultParams], by norm_num [defaultParams], by norm_num [defaultParams]⟩,
   (C7_base_rectangle_bbox defaultParams (by norm_num [defaultParams])
      (by norm_num [defaultParams]) (by norm_num [defaultParams])).2.2.2.1,
   (C7_base_rectangle_bbox defaultParams (by norm_num [defaultParams])
      (by norm_num [defaultParams]) (by norm_num [defaultParams])).2.2.2.2.1,
   (C7_base_rectangle_bbox defaultParams (by norm_num [defaultParams])
      (by norm_num [defaultParams]) (by norm_num [defaultParams])).2.2.2.2.2.1⟩

/-- Claim C8, counterexample: the params dictionary has 16 entries, not 18. -/
theorem C8_not_eighteen_entries :
    ¬ ((paramsList defaultParams).length = 18) := by decide

/-- Claim C8, amended: the parameter schema consists of exactly 16 distinct named numeric
entries spanning the base, button, socket, cable and wall-thickness groups, with the
hardcoded default values of the source. -/
theorem C8_parameter_schema :
    (paramsList defaultParams).map Prod.fst =
      ["base_length", "base_width", "base_height", "base_fillet",
       "button_diameter", "button_height", "button_spacing", "button_offset_y",
       "socket_width", "socket_length", "socket_depth", "socket_offset_z",
       "cable_diameter", "cable_hole_x", "cable_hole_z", "wall_thickness"] ∧
    (paramsList defaultParams).length = 16 ∧
    ((paramsList defaultParams).map Prod.fst).Nodup ∧
    (paramsList defaultParams).map Prod.snd =
      [120, 40, 15, 3, 12, 8, 35, 0, 6, 6, 10, 2, 6, -50, 15 / 2, 2] := by
  refine ⟨rfl, rfl, by decide, rfl⟩

/-- Claim C9, counterexample: the construction sequence creates five sketches, not six. -/
theorem C9_not_six_sketches :
    ¬ ((sketchNames (trace defaultParams)).length = 6) := by decide

/-- Claim C9, amended: for every parameter set, each of the five sketches the generator
creates receives all of its geometry and constraints strictly before the solid feature
consuming it is created, and no operation mutates it afterwards. -/
theorem C9_sketches_settled (p : Params) :
    checkTrace (trace p) = true ∧ (sketchNames (trace p)).length = 5 := by
  constructor
  · show viewChecks ((trace p).map opView) = true
    rw [trace_view_const p]
    decide
  · show (viewSketchNames ((trace p).map opView)).length = 5
    rw [trace_view_const p]
    decide

set_option maxHeartbeats 1000000 in
/-- Claim C10: the construction trace is unchanged under any change of socket_offset_z,
cable_hole_x and wall_thickness, because no construction stage reads these three
parameters; two parameter sets differing only there yield identical call sequences. -/
theorem C10_unread_parameters (p : Params) (x y z : ℚ) :
    trace p =
      trace { p with socket_offset_z := x, cable_hole_x := y, wall_thickness := z } := by
  obtain ⟨a1, a2, a3, a4, a5, a6, a7, a8, a9, a10, a11, a12, a13, a14, a15, a16⟩ := p
  rfl
